import Mathlib

/-!
Verification of the cart/state-store layer of a storefront frontend.

The development shallowly embeds the client state store (a zustand store
with a persist middleware), its cart-synchronization operations, and the
pure conversion helpers between the backend product shape and the UI
product shape.  Asynchronous network calls are embedded by passing each
operation the outcome of every HTTP request it may issue (success payload
or failure), and by returning the list of API calls the operation issued,
in order.  JavaScript truthiness on optional / zero values is modelled
explicitly by the jsOr* helpers.
-/

namespace Storefront

/-- JavaScript `x || d` for numbers: `0` is falsy. -/
def jsOrRat (x d : Rat) : Rat := if x = 0 then d else x

/-- JavaScript `x || d` for integers: `0` is falsy. -/
def jsOrInt (x d : Int) : Int := if x = 0 then d else x

/-- JavaScript `x || d` for an optional number: `undefined` and `0` are falsy. -/
def jsOrOptRat (x : Option Rat) (d : Rat) : Rat :=
  match x with
  | some v => if v = 0 then d else v
  | none => d

/-- JavaScript `s || d` for an optional string: `undefined` and `""` are falsy. -/
def jsOrOptStr (x : Option String) (d : String) : String :=
  match x with
  | some s => if s = "" then d else s
  | none => d

/-- JavaScript `s || d` for a string: the empty string is falsy. -/
def jsOrStr (x d : String) : String := if x = "" then d else x

/-- JavaScript `parseInt` as used on product ids (ill-formed ids map to 0). -/
def parseIntJs (s : String) : Int := (s.toInt?).getD 0

/-- Backend product shape (src/types, as consumed by convertProductToUI). -/
structure Product where
  productId : Int
  name : String
  description : String
  price : Rat
  imageUrl : Option String
  categoryName : String
  stockQuantity : Int
  deriving DecidableEq, Repr

/-- UI product shape produced by convertProductToUI. -/
structure UIProduct where
  id : String
  name : String
  description : String
  price : Rat
  image : String
  category : String
  size : String
  stock : Int
  featured : Bool
  rating : Rat
  reviews : Nat
  deriving DecidableEq, Repr

/-- Backend category shape. -/
structure Category where
  categoryId : Int
  name : String
  description : String
  productCount : Int
  deriving DecidableEq, Repr

/-- UI category shape produced by convertCategoryToUI. -/
structure UICategory where
  id : String
  name : String
  description : String
  productCount : Int
  deriving DecidableEq, Repr

/-- The fixed backend base URL (API_BASE_URL in src/lib/product-utils). -/
def API_BASE_URL : String := "https://backend-production-8f5c.up.railway.app"

/-- Converts a backend Product to the UI shape (convertProductToUI).
The call to Math.random made for the mock reviews count is embedded as the
explicit oracle argument rand: the JavaScript expression
Math.floor(Math.random() * 100) is the value rand % 100. -/
def convertProductToUI (backendProduct : Product) (rand : Nat) : UIProduct :=
  let imageUrl0 := jsOrOptStr backendProduct.imageUrl "/placeholder.svg"
  let imageUrl :=
    if imageUrl0.startsWith "/uploads" then API_BASE_URL ++ imageUrl0 else imageUrl0
  { id := toString backendProduct.productId
    name := backendProduct.name
    description := backendProduct.description
    price := backendProduct.price
    image := imageUrl
    category := backendProduct.categoryName
    size := "Medium"
    stock := backendProduct.stockQuantity
    featured := false
    rating := (9 : Rat) / 2
    reviews := rand % 100 }

/-- Converts a list of backend Products (convertProductsToUI); the random
oracle supplies one draw per list position. -/
def convertProductsToUI (backendProducts : List Product) (rnd : Nat → Nat) : List UIProduct :=
  (backendProducts.enum).map fun pi => convertProductToUI pi.2 (rnd pi.1)

/-- Converts a backend Category to the UI shape (convertCategoryToUI). -/
def convertCategoryToUI (backendCategory : Category) : UICategory :=
  { id := toString backendCategory.categoryId
    name := backendCategory.name
    description := backendCategory.description
    productCount := backendCategory.productCount }

/-- Converts a list of backend Categories (convertCategoriesToUI). -/
def convertCategoriesToUI (backendCategories : List Category) : List UICategory :=
  backendCategories.map convertCategoryToUI

/-- Personalization payload attached to a cart line.  The free-form
JavaScript object is embedded by the facts the store consults: the list of
its top-level keys (Object.keys), and whether it already carries the
new-format markers (a truthy customization_id, or teddy.included). -/
structure Personalization where
  keys : List String
  hasCustomizationId : Bool
  teddyIncluded : Bool
  deriving DecidableEq, Repr

/-- Cart line held in the local mirror.  backendId is the optional
server-assigned line id; a JavaScript object with the property absent is
none, and truthiness of a present id is checked separately (0 is falsy). -/
structure CartItem where
  id : String
  name : String
  description : String
  price : Rat
  quantity : Int
  image : String
  category : String
  size : String
  stock : Int
  rating : Rat
  reviews : Nat
  backendId : Option Int
  personalizationDetails : Option Personalization
  extraPrice : Rat
  totalPrice : Rat
  deriving DecidableEq, Repr

/-- Cart line as returned by the backend getCartItems endpoint. -/
structure BackendCartItem where
  itemId : Int
  productId : Int
  productName : String
  productPrice : Rat
  quantity : Int
  imageUrl : Option String
  personalizationDetails : Option Personalization
  extraPrice : Option Rat
  itemTotal : Rat
  deriving DecidableEq, Repr

/-- User roles of the store. -/
inductive Role
  | customer
  | admin
  | cashier
  deriving DecidableEq, Repr

/-- API calls the cart operations can issue, in the order they are awaited. -/
inductive ApiCall
  | getCartItems
  | addItemCall (productId : Int) (quantity : Int)
  | addItemWithPersonalizationCall (productId : Int) (quantity : Int)
  | removeCartItemCall (itemId : Int)
  | updateCartItemCall (itemId : Int) (quantity : Int)
  | clearCartCall
  deriving DecidableEq, Repr

/-- Browser localStorage, restricted to the serialized cart portion of the
snapshots the store reads or writes.  Writes shadow earlier entries. -/
abbrev Storage := List (String × List CartItem)

/-- Reads a key from localStorage. -/
def lookupKV (s : Storage) (k : String) : Option (List CartItem) :=
  (List.find? (fun p => p.1 == k) s).map (fun p => p.2)

/-- Writes a key to localStorage. -/
def writeKV (s : Storage) (k : String) (v : List CartItem) : Storage :=
  (k, v) :: List.filter (fun p => !(p.1 == k)) s

/-- The fixed storage key of the persist middleware (name: teddylove-store). -/
def storeName : String := "teddylove-store"

/-- Client state store: the slice of the zustand store the claims concern,
together with the localStorage contents. -/
structure StoreState where
  currentUser : Option Role
  products : List UIProduct
  categories : List UICategory
  cart : List CartItem
  posCart : List CartItem
  storage : Storage
  deriving Repr

/-- Modelled from the spec: the zustand persist middleware (only its
configuration, the store name, is in the source; the middleware itself is
library code).  Per the spec, the store "persists a serializable snapshot
(user session, cart mirror) across reloads", "written on every mutation";
so every set of the cart also rewrites the snapshot under the fixed
storage key. -/
def setCart (st : StoreState) (c : List CartItem) : StoreState :=
  { st with cart := c, storage := writeKV st.storage storeName c }

/-- The cart portion of the persisted snapshot under the fixed storage key. -/
def persistedCart (st : StoreState) : List CartItem :=
  (lookupKV st.storage storeName).getD []

/-- Converts one backend cart line to the frontend shape, exactly as the
mapping inside syncCartWithBackend does. -/
def convertBackendCartItem (item : BackendCartItem) : CartItem :=
  { id := toString item.productId
    name := item.productName
    description := item.productName
    price := item.productPrice
    quantity := item.quantity
    image := jsOrOptStr item.imageUrl "/placeholder.svg"
    category := "Unknown"
    size := "Medium"
    stock := 999
    rating := 0
    reviews := 0
    backendId := some item.itemId
    personalizationDetails := item.personalizationDetails
    extraPrice := jsOrOptRat item.extraPrice 0
    totalPrice := item.itemTotal }

/-- syncCartWithBackend: skips when unauthenticated; otherwise issues
getCartItems and on success replaces the local mirror wholesale with the
converted server cart; a failed fetch is caught and leaves state unchanged.
The argument resp is the outcome of the getCartItems call. -/
def syncCartWithBackend (st : StoreState)
    (resp : Except Unit (List BackendCartItem)) : StoreState × List ApiCall :=
  match st.currentUser with
  | none => (st, [])
  | some _ =>
    match resp with
    | .ok backendCart => (setCart st (backendCart.map convertBackendCartItem), [ApiCall.getCartItems])
    | .error _ => (st, [ApiCall.getCartItems])

/-- JavaScript truthiness of a possibly-absent backendId (0 is falsy). -/
def truthyB : Option Int → Bool
  | some n => n != 0
  | none => false

/-- The condition under which removeFromCart / updateCartQuantity first
resync: the item was found and its backendId is absent or falsy. -/
def needsSyncFor (cart : List CartItem) (pid : String) : Bool :=
  match cart.find? (fun i => i.id == pid) with
  | some it => !(truthyB it.backendId)
  | none => false

/-- The backendId used for the server call, when the (re-)found item has a
truthy one. -/
def foundBid (cart : List CartItem) (pid : String) : Option Int :=
  match cart.find? (fun i => i.id == pid) with
  | some it => if truthyB it.backendId then it.backendId else none
  | none => none

/-- Result of one store cart operation: the new state, the API calls
issued in order, and the exception propagated to the caller, if any. -/
structure CartOpOut where
  st : StoreState
  calls : List ApiCall
  thrown : Option String
  deriving Repr

/-- removeFromCart(productId).  s1 is the outcome of the resync issued when
the found item lacks a truthy backendId, r the outcome of the
removeFromCart API call, s2 the outcome of the resync after a successful
removal.  Failures of r are caught and fall back to local removal. -/
def removeFromCart (st : StoreState) (productId : String)
    (s1 : Except Unit (List BackendCartItem)) (r : Except Unit Unit)
    (s2 : Except Unit (List BackendCartItem)) : CartOpOut :=
  match st.currentUser with
  | none =>
    { st := setCart st (st.cart.filter (fun i => !(i.id == productId)))
      calls := [], thrown := none }
  | some _ =>
    let pre := if needsSyncFor st.cart productId then syncCartWithBackend st s1 else (st, [])
    match foundBid pre.1.cart productId with
    | some bid =>
      match r with
      | .ok _ =>
        let post := syncCartWithBackend pre.1 s2
        { st := post.1
          calls := pre.2 ++ [ApiCall.removeCartItemCall bid] ++ post.2
          thrown := none }
      | .error _ =>
        { st := setCart pre.1 (pre.1.cart.filter (fun i => !(i.id == productId)))
          calls := pre.2 ++ [ApiCall.removeCartItemCall bid]
          thrown := none }
    | none =>
      { st := setCart pre.1 (pre.1.cart.filter (fun i => !(i.id == productId)))
        calls := pre.2, thrown := none }

/-- The purely local cart adjustment used by updateCartQuantity in its
unauthenticated, no-backendId and backend-failure branches: a
non-positive quantity removes the line, otherwise the quantity is mapped
in place. -/
def localAdjust (cart : List CartItem) (pid : String) (q : Int) : List CartItem :=
  if q ≤ 0 then cart.filter (fun i => !(i.id == pid))
  else cart.map (fun i => if i.id == pid then { i with quantity := q } else i)

/-- updateCartQuantity(productId, quantity); arguments as in removeFromCart
with r the outcome of the updateCartItem API call. -/
def updateCartQuantity (st : StoreState) (productId : String) (quantity : Int)
    (s1 : Except Unit (List BackendCartItem)) (r : Except Unit Unit)
    (s2 : Except Unit (List BackendCartItem)) : CartOpOut :=
  match st.currentUser with
  | none =>
    { st := setCart st (localAdjust st.cart productId quantity)
      calls := [], thrown := none }
  | some _ =>
    let pre := if needsSyncFor st.cart productId then syncCartWithBackend st s1 else (st, [])
    match foundBid pre.1.cart productId with
    | some bid =>
      match r with
      | .ok _ =>
        let post := syncCartWithBackend pre.1 s2
        { st := post.1
          calls := pre.2 ++ [ApiCall.updateCartItemCall bid quantity] ++ post.2
          thrown := none }
      | .error _ =>
        { st := setCart pre.1 (localAdjust pre.1.cart productId quantity)
          calls := pre.2 ++ [ApiCall.updateCartItemCall bid quantity]
          thrown := none }
    | none =>
      { st := setCart pre.1 (localAdjust pre.1.cart productId quantity)
        calls := pre.2, thrown := none }

/-- clearCart.  If authenticated, issues the server clear (whose failure r
is caught and ignored); then unconditionally empties the local mirror (the
persist middleware rewriting the snapshot), and finally performs the
manual localStorage scrub, which reads the key "useStore" and, when an
entry is present there, rewrites it with an empty cart. -/
def clearCart (st : StoreState) (r : Except Unit Unit) : CartOpOut :=
  let calls : List ApiCall :=
    match st.currentUser with
    | some _ => [ApiCall.clearCartCall]
    | none => []
  let st1 := setCart st []
  let st2 :=
    match lookupKV st1.storage "useStore" with
    | some _ => { st1 with storage := writeKV st1.storage "useStore" [] }
    | none => st1
  let _ := r
  { st := st2, calls := calls, thrown := none }

/-- JavaScript `n || 0` on a review count. -/
def jsOrNat (x d : Nat) : Nat := if x = 0 then d else x

/-- Modelled from the spec: convertToNewFormat and calculateExtraCost live
in src/lib/personalization-utils, which is not among the provided sources;
the spec says addItem "normalizes legacy personalization shapes into the
canonical structured format before sending" with a "computed extra price".
They are therefore passed as the parameters conv and cost.  This function
is the normalization prelude of addToCart: a non-empty payload that lacks
both new-format markers is converted and its extra price recomputed. -/
def normalizePersonalization (conv : Personalization → Personalization)
    (cost : Personalization → Rat)
    (pd : Option Personalization) (extraPrice : Rat) :
    Option Personalization × Rat :=
  match pd with
  | some d =>
    if d.keys ≠ [] then
      if !d.hasCustomizationId && !d.teddyIncluded then
        let nd := conv d
        (some nd, cost nd)
      else (some d, extraPrice)
    else (some d, extraPrice)
  | none => (none, extraPrice)

/-- The cart line object constructed inside addToCart from the product, the
(normalized) personalization payload and the effective extra price. -/
def addToCartItem (product : UIProduct) (quantity : Int)
    (npd : Option Personalization) (extraPrice : Rat) : CartItem :=
  { id := product.id
    name := product.name
    description := jsOrStr product.description ""
    price := product.price
    quantity := quantity
    image := product.image
    category := product.category
    size := product.size
    stock := jsOrInt product.stock 999
    rating := jsOrRat product.rating 0
    reviews := jsOrNat product.reviews 0
    backendId := none
    personalizationDetails := npd
    extraPrice := extraPrice
    totalPrice := (product.price + extraPrice) * (quantity : Rat) }

/-- JavaScript truthiness of the normalized payload for choosing between
the two add endpoints: present and with at least one key. -/
def personalizationNonEmpty : Option Personalization → Bool
  | some d => decide (d.keys ≠ [])
  | none => false

/-- addToCart(product, quantity, personalizationDetails, extraPrice).
Unauthenticated calls throw before any network request.  addResp is the
outcome of the add endpoint call, syncResp of the follow-up resync; a
failed add is rethrown to the caller. -/
def addToCart (st : StoreState) (product : UIProduct) (quantity : Int)
    (pd : Option Personalization) (extraPrice : Rat)
    (conv : Personalization → Personalization) (cost : Personalization → Rat)
    (addResp : Except String Unit)
    (syncResp : Except Unit (List BackendCartItem)) : CartOpOut :=
  match st.currentUser with
  | none =>
    { st := st, calls := []
      thrown := some "You must be logged in to add items to cart. Please log in first." }
  | some _ =>
    let np := normalizePersonalization conv cost pd extraPrice
    let _cartItem := addToCartItem product quantity np.1 np.2
    let call :=
      if personalizationNonEmpty np.1 then
        ApiCall.addItemWithPersonalizationCall (parseIntJs product.id) quantity
      else
        ApiCall.addItemCall (parseIntJs product.id) quantity
    match addResp with
    | .ok _ =>
      let post := syncCartWithBackend st syncResp
      { st := post.1, calls := [call] ++ post.2, thrown := none }
    | .error msg =>
      { st := st, calls := [call], thrown := some msg }

/-- getCartTotal: left fold over the cart of unit price times quantity plus
extra price times quantity. -/
def getCartTotal (cart : List CartItem) : Rat :=
  cart.foldl
    (fun total item =>
      total + item.price * (item.quantity : Rat)
        + jsOrRat item.extraPrice 0 * (item.quantity : Rat)) 0

/-- Outcomes of the product-list fetch: a direct array, a paginated
response with a content array, an unrecognized shape (which fetchProducts
turns into a thrown error caught by its own handler), or a failed HTTP
call. -/
inductive ProductsResp
  | direct (l : List Product)
  | paginated (l : List Product)
  | unexpected
  | failed
  deriving DecidableEq, Repr

/-- fetchProducts: on success stores the converted products; any failure
(HTTP error or unexpected response shape) is caught and the product list
is set to the empty array. -/
def fetchProducts (st : StoreState) (resp : ProductsResp) (rnd : Nat → Nat) : StoreState :=
  match resp with
  | .direct backendProducts => { st with products := convertProductsToUI backendProducts rnd }
  | .paginated content => { st with products := convertProductsToUI content rnd }
  | .unexpected => { st with products := [] }
  | .failed => { st with products := [] }

/-- fetchCategories: on success stores the converted categories; a failed
call is caught and the category list is set to the empty array. -/
def fetchCategories (st : StoreState) (resp : Except Unit (List Category)) : StoreState :=
  match resp with
  | .ok backendCategories => { st with categories := convertCategoriesToUI backendCategories }
  | .error _ => { st with categories := [] }

/-- The POS cart line created by spreading a product with a quantity; the
cart-only fields the spread leaves undefined are given inert defaults. -/
def posItemOfProduct (product : UIProduct) (quantity : Int) : CartItem :=
  { id := product.id
    name := product.name
    description := product.description
    price := product.price
    quantity := quantity
    image := product.image
    category := product.category
    size := product.size
    stock := product.stock
    rating := product.rating
    reviews := product.reviews
    backendId := none
    personalizationDetails := none
    extraPrice := 0
    totalPrice := 0 }

/-- addToPosCart: an existing line with the product id has its quantity
incremented; otherwise a new line is appended. -/
def addToPosCart (posCart : List CartItem) (product : UIProduct) (quantity : Int) :
    List CartItem :=
  match posCart.find? (fun item => item.id == product.id) with
  | some _ =>
    posCart.map fun item =>
      if item.id == product.id then { item with quantity := item.quantity + quantity } else item
  | none => posCart ++ [posItemOfProduct product quantity]

/-- removeFromPosCart. -/
def removeFromPosCart (posCart : List CartItem) (productId : String) : List CartItem :=
  posCart.filter (fun item => !(item.id == productId))

/-- updatePosCartQuantity: non-positive quantity removes the line. -/
def updatePosCartQuantity (posCart : List CartItem) (productId : String) (quantity : Int) :
    List CartItem :=
  if quantity ≤ 0 then posCart.filter (fun item => !(item.id == productId))
  else posCart.map fun item =>
    if item.id == productId then { item with quantity := quantity } else item

/-- clearPosCart. -/
def clearPosCart : List CartItem := []

/-- The product ids of a POS cart, in order. -/
def posIds (cart : List CartItem) : List String := cart.map (fun item => item.id)

/-- Whether an API call is a server-side cart line removal. -/
def isRemoveCall : ApiCall → Bool
  | ApiCall.removeCartItemCall _ => true
  | _ => false

/-- Whether an API call is a fetch of the authoritative cart (the call
syncCartWithBackend issues). -/
def isSyncCall : ApiCall → Bool
  | ApiCall.getCartItems => true
  | _ => false

/-- Sample backend product used by concrete witnesses. -/
def sampleBackendProduct : Product :=
  { productId := 7, name := "Teddy", description := "Soft bear", price := 10,
    imageUrl := some "/uploads/teddy.png", categoryName := "Bears", stockQuantity := 5 }

/-- Sample UI product used by concrete witnesses. -/
def sampleUIProduct : UIProduct :=
  { id := "7", name := "Teddy", description := "Soft bear", price := 10,
    image := "/placeholder.svg", category := "Bears", size := "Medium",
    stock := 5, featured := false, rating := 4, reviews := 3 }

/-- Sample UI category used by concrete witnesses. -/
def sampleUICategory : UICategory :=
  { id := "1", name := "Bears", description := "Plush bears", productCount := 2 }

/-- Sample backend cart line used by concrete witnesses. -/
def sampleBackendItem : BackendCartItem :=
  { itemId := 42, productId := 7, productName := "Teddy", productPrice := 10,
    quantity := 2, imageUrl := none, personalizationDetails := none,
    extraPrice := none, itemTotal := 20 }

/-- Sample local cart line without a backendId. -/
def sampleItemNoBid : CartItem := posItemOfProduct sampleUIProduct 1

/-- Sample local cart line with a known (truthy) backendId. -/
def sampleItemBid : CartItem := { sampleItemNoBid with backendId := some 42 }

/-- An authenticated store state with the given cart mirror. -/
def mkAuthState (cart : List CartItem) : StoreState :=
  { currentUser := some Role.customer, products := [], categories := [],
    cart := cart, posCart := [], storage := [] }

/-- An unauthenticated store state holding one local cart line. -/
def unauthState : StoreState :=
  { currentUser := none, products := [], categories := [], cart := [sampleItemNoBid],
    posCart := [], storage := [] }

/-- An unauthenticated state with non-empty cached product and category
lists. -/
def sampleStateCached : StoreState :=
  { currentUser := none, products := [sampleUIProduct], categories := [sampleUICategory],
    cart := [], posCart := [], storage := [] }

theorem lookupKV_writeKV_self (s : Storage) (k : String) (v : List CartItem) :
    lookupKV (writeKV s k v) k = some v := by
  simp [lookupKV, writeKV]

theorem find?_key_filter (s : Storage) (k k2 : String) (h : ¬ k2 = k) :
    List.find? (fun p => p.1 == k2) (List.filter (fun p => !(p.1 == k)) s)
      = List.find? (fun p => p.1 == k2) s := by
  induction s with
  | nil => rfl
  | cons hd tl ih =>
    by_cases hk : hd.1 = k
    · have hpb : (k == k2) = false := by
        simp only [beq_eq_false_iff_ne, ne_eq]
        exact fun he => h he.symm
      simp [List.filter_cons, List.find?_cons, hk, hpb, ih]
    · by_cases hk2 : hd.1 = k2
      · simp [List.filter_cons, List.find?_cons, hk, hk2, h]
      · simp [List.filter_cons, List.find?_cons, hk, hk2, ih]

theorem lookupKV_writeKV_ne (s : Storage) (k k2 : String) (v : List CartItem)
    (h : ¬ k2 = k) :
    lookupKV (writeKV s k v) k2 = lookupKV s k2 := by
  have hke : (k == k2) = false := by
    simp only [beq_eq_false_iff_ne, ne_eq]
    exact fun he => h he.symm
  simp [lookupKV, writeKV, List.find?_cons, hke, find?_key_filter s k k2 h]

theorem syncCartWithBackend_currentUser (st : StoreState)
    (resp : Except Unit (List BackendCartItem)) :
    (syncCartWithBackend st resp).1.currentUser = st.currentUser := by
  unfold syncCartWithBackend
  cases hcu : st.currentUser <;> cases resp <;> simp [hcu, setCart]

theorem localAdjust_zero (cart : List CartItem) (pid : String) :
    localAdjust cart pid 0 = cart.filter (fun i => !(i.id == pid)) := by
  simp [localAdjust]

theorem jsOrRat_zero_default (x : Rat) : jsOrRat x 0 = x := by
  unfold jsOrRat
  split <;> simp_all

theorem posIds_map_id_preserving (cart : List CartItem) (f : CartItem → CartItem)
    (hf : ∀ i, (f i).id = i.id) :
    posIds (cart.map f) = posIds cart := by
  unfold posIds
  rw [List.map_map]
  exact List.map_congr_left fun i _ => hf i

theorem posIds_filter_sublist (cart : List CartItem) (p : CartItem → Bool) :
    (posIds (cart.filter p)).Sublist (posIds cart) :=
  (List.filter_sublist cart).map _

/-- C1: for every authenticated state and every server cart response, a
successful resync (syncCartWithBackend) sets the local cart mirror to
exactly the converted server cart items, discarding all prior local
entries; every item of the resulting mirror is the conversion of an item
of the server response, regardless of what the mirror held before. -/
theorem C1_resync_replaces_mirror (st : StoreState) (items : List BackendCartItem)
    (hu : st.currentUser ≠ none) :
    (syncCartWithBackend st (Except.ok items)).1.cart
      = items.map convertBackendCartItem ∧
    ∀ c ∈ (syncCartWithBackend st (Except.ok items)).1.cart,
      ∃ b ∈ items, c = convertBackendCartItem b := by
  cases hcu : st.currentUser with
  | none => exact absurd hcu hu
  | some u =>
    have hc : (syncCartWithBackend st (Except.ok items)).1.cart
        = items.map convertBackendCartItem := by
      simp [syncCartWithBackend, hcu, setCart]
    refine ⟨hc, ?_⟩
    intro c hcmem
    rw [hc] at hcmem
    obtain ⟨b, hb, hfb⟩ := List.mem_map.mp hcmem
    exact ⟨b, hb, hfb.symm⟩

/-- Witness for C1 at a concrete authenticated state holding a stale local
line and a concrete one-item server response. -/
theorem C1_resync_replaces_mirror_witness :
    (syncCartWithBackend (mkAuthState [sampleItemNoBid])
        (Except.ok [sampleBackendItem])).1.cart
      = [sampleBackendItem].map convertBackendCartItem :=
  (C1_resync_replaces_mirror (mkAuthState [sampleItemNoBid]) [sampleBackendItem]
    (by simp [mkAuthState])).1

/-- C4: addToCart without an authenticated session throws the
authentication-required error, issues no API call, and leaves the store
state (in particular the cart mirror) exactly as it was. -/
theorem C4_add_requires_auth (st : StoreState) (product : UIProduct) (quantity : Int)
    (pd : Option Personalization) (extraPrice : Rat)
    (conv : Personalization → Personalization) (cost : Personalization → Rat)
    (addResp : Except String Unit) (syncResp : Except Unit (List BackendCartItem))
    (hu : st.currentUser = none) :
    (addToCart st product quantity pd extraPrice conv cost addResp syncResp).st = st ∧
    (addToCart st product quantity pd extraPrice conv cost addResp syncResp).calls = [] ∧
    (addToCart st product quantity pd extraPrice conv cost addResp syncResp).thrown
      = some "You must be logged in to add items to cart. Please log in first." := by
  simp [addToCart, hu]

/-- Witness for C4 at a concrete unauthenticated state. -/
theorem C4_add_requires_auth_witness :
    (addToCart unauthState sampleUIProduct 1 none 0 id (fun _ => 0) (Except.ok ())
        (Except.ok [])).st = unauthState ∧
    (addToCart unauthState sampleUIProduct 1 none 0 id (fun _ => 0) (Except.ok ())
        (Except.ok [])).calls = [] ∧
    (addToCart unauthState sampleUIProduct 1 none 0 id (fun _ => 0) (Except.ok ())
        (Except.ok [])).thrown
      = some "You must be logged in to add items to cart. Please log in first." :=
  C4_add_requires_auth unauthState sampleUIProduct 1 none 0 id (fun _ => 0)
    (Except.ok ()) (Except.ok []) rfl

/-- C5 counterexample: with a non-empty cached product list and category
list, a failed fetch does not leave the cached lists untouched — both are
reset to the empty array. -/
theorem C5_counterexample :
    ¬ ((fetchProducts sampleStateCached ProductsResp.failed (fun _ => 0)).products
        = sampleStateCached.products ∧
      (fetchCategories sampleStateCached (Except.error ())).categories
        = sampleStateCached.categories) := by
  intro hcon
  have h1 := hcon.1
  simp [fetchProducts, sampleStateCached] at h1

/-- C5 amended: a failed fetchProducts or fetchCategories call resets the
corresponding cached list to the empty array (discarding the prior cache)
and leaves every other part of the state unchanged. -/
theorem C5_amended_failed_fetch_resets (st : StoreState) (rnd : Nat → Nat) :
    (fetchProducts st ProductsResp.failed rnd).products = [] ∧
    (fetchProducts st ProductsResp.unexpected rnd).products = [] ∧
    (fetchProducts st ProductsResp.failed rnd).categories = st.categories ∧
    (fetchProducts st ProductsResp.failed rnd).cart = st.cart ∧
    (fetchCategories st (Except.error ())).categories = [] ∧
    (fetchCategories st (Except.error ())).products = st.products ∧
    (fetchCategories st (Except.error ())).cart = st.cart := by
  simp [fetchProducts, fetchCategories]

/-- C6 counterexample: convertProductToUI is not a pure function of the
backend product alone: two evaluations on the same input whose embedded
Math.random draws differ return different UIProducts, because the reviews
field is a random mock count. -/
theorem C6_counterexample :
    convertProductToUI sampleBackendProduct 0
      ≠ convertProductToUI sampleBackendProduct 1 := by
  intro hcon
  have hr := congrArg UIProduct.reviews hcon
  simp [convertProductToUI] at hr

/-- C6 amended: convertProductToUI is deterministic in every field except
the reviews count: two evaluations on the same backend product agree on
id, name, description, price, image, category, size, stock, featured and
rating; only the reviews field depends on the random draw. -/
theorem C6_amended_deterministic_except_reviews (p : Product) (r1 r2 : Nat) :
    (convertProductToUI p r1).id = (convertProductToUI p r2).id ∧
    (convertProductToUI p r1).name = (convertProductToUI p r2).name ∧
    (convertProductToUI p r1).description = (convertProductToUI p r2).description ∧
    (convertProductToUI p r1).price = (convertProductToUI p r2).price ∧
    (convertProductToUI p r1).image = (convertProductToUI p r2).image ∧
    (convertProductToUI p r1).category = (convertProductToUI p r2).category ∧
    (convertProductToUI p r1).size = (convertProductToUI p r2).size ∧
    (convertProductToUI p r1).stock = (convertProductToUI p r2).stock ∧
    (convertProductToUI p r1).featured = (convertProductToUI p r2).featured ∧
    (convertProductToUI p r1).rating = (convertProductToUI p r2).rating :=
  ⟨rfl, rfl, rfl, rfl, rfl, rfl, rfl, rfl, rfl, rfl⟩

/-- C7: the cart line addToCart constructs carries line total
(unit price + effective extra price) times quantity; getCartTotal
recomputes the same amount for a cart holding exactly that line; the
normalization prelude keeps the extra price at zero when no
personalization is passed, so with quantity one and no personalization the
line total equals the unit price. -/
theorem C7_line_total (product : UIProduct) (quantity : Int)
    (npd : Option Personalization) (extraPrice : Rat)
    (conv : Personalization → Personalization) (cost : Personalization → Rat) :
    (addToCartItem product quantity npd extraPrice).totalPrice
      = (product.price + extraPrice) * (quantity : Rat) ∧
    getCartTotal [addToCartItem product quantity npd extraPrice]
      = (product.price + extraPrice) * (quantity : Rat) ∧
    normalizePersonalization conv cost none 0 = (none, 0) ∧
    (addToCartItem product 1 none 0).totalPrice = product.price := by
  refine ⟨rfl, ?_, rfl, by simp [addToCartItem]⟩
  simp [getCartTotal, addToCartItem, jsOrRat_zero_default]
  ring

/-- C2 counterexample: in the authenticated branch with a known backendId,
updateCartQuantity with quantity zero issues an updateCartItem call with
quantity zero, while removeFromCart issues a removal call for the same
line: the externally visible outcomes differ, so the two operations are
not equivalent in every branch as claimed. -/
theorem C2_counterexample :
    (updateCartQuantity (mkAuthState [sampleItemBid]) "7" 0 (Except.ok [])
        (Except.ok ()) (Except.ok [])).calls
      ≠ (removeFromCart (mkAuthState [sampleItemBid]) "7" (Except.ok [])
        (Except.ok ()) (Except.ok [])).calls := by
  decide

/-- C2 amended: given identical server responses, updateCartQuantity with
quantity zero and removeFromCart leave the same local cart mirror in every
branch (unauthenticated, no backendId, known backendId with success or
failure); only the API call issued in the known-backendId branch differs. -/
theorem C2_amended_updateZero_same_mirror (st : StoreState) (pid : String)
    (s1 : Except Unit (List BackendCartItem)) (r : Except Unit Unit)
    (s2 : Except Unit (List BackendCartItem)) :
    (updateCartQuantity st pid 0 s1 r s2).st.cart
      = (removeFromCart st pid s1 r s2).st.cart := by
  cases hcu : st.currentUser with
  | none => simp [updateCartQuantity, removeFromCart, hcu, setCart, localAdjust_zero]
  | some u =>
    simp only [updateCartQuantity, removeFromCart, hcu]
    cases hfb : foundBid
        (if needsSyncFor st.cart pid then syncCartWithBackend st s1 else (st, [])).1.cart
        pid with
    | none => simp [hfb, setCart, localAdjust_zero]
    | some bid =>
      cases r with
      | ok _ => simp [hfb]
      | error _ => simp [hfb, setCart, localAdjust_zero]

/-- C3: clearCart always leaves an empty local cart mirror and an empty
cart in the persisted snapshot under the fixed storage key, and propagates
no exception, including in the execution where the server-side clear call
fails. -/
theorem C3_clear_empties_mirror_and_snapshot (st : StoreState) (r : Except Unit Unit) :
    (clearCart st r).st.cart = [] ∧
    persistedCart (clearCart st r).st = [] ∧
    (clearCart st r).thrown = none := by
  refine ⟨?_, ?_, by simp [clearCart]⟩
  · simp only [clearCart]
    cases hl : lookupKV (setCart st []).storage "useStore" <;> simp [hl, setCart]
  · simp only [clearCart, persistedCart]
    cases hl : lookupKV (setCart st []).storage "useStore" with
    | none => simp [hl, setCart, lookupKV_writeKV_self]
    | some snap =>
      have hne : ¬ storeName = "useStore" := by decide
      simp only [hl]
      rw [lookupKV_writeKV_ne _ _ _ _ hne]
      simp [setCart, lookupKV_writeKV_self]

/-- C8: in an authenticated state holding a cart line without a truthy
backendId, removeFromCart performs exactly one resynchronization (one
getCartItems fetch) before any server-side removal call is attempted. -/
theorem C8_one_resync_before_removal (st : StoreState) (pid : String)
    (s1 : Except Unit (List BackendCartItem)) (r : Except Unit Unit)
    (s2 : Except Unit (List BackendCartItem)) (u : Role) (item : CartItem)
    (hu : st.currentUser = some u)
    (hfind : st.cart.find? (fun i => i.id == pid) = some item)
    (hb : truthyB item.backendId = false) :
    (((removeFromCart st pid s1 r s2).calls.takeWhile
        fun c => !(isRemoveCall c)).countP isSyncCall) = 1 := by
  have hns : needsSyncFor st.cart pid = true := by
    simp [needsSyncFor, hfind, hb]
  have hpre2 : (syncCartWithBackend st s1).2 = [ApiCall.getCartItems] := by
    cases s1 <;> simp [syncCartWithBackend, hu]
  simp only [removeFromCart, hu, hns, if_true]
  cases hfb : foundBid (syncCartWithBackend st s1).1.cart pid with
  | none =>
    simp [hpre2, List.takeWhile_cons, isRemoveCall, isSyncCall, List.countP_cons]
  | some bid =>
    cases r with
    | ok _ =>
      simp [hpre2, List.takeWhile_cons, isRemoveCall, isSyncCall, List.countP_cons]
    | error _ =>
      simp [hpre2, List.takeWhile_cons, isRemoveCall, isSyncCall, List.countP_cons]

/-- Witness for C8 at a concrete authenticated state holding a line
without backendId, with a server response that supplies one. -/
theorem C8_one_resync_before_removal_witness :
    (((removeFromCart (mkAuthState [sampleItemNoBid]) "7" (Except.ok [sampleBackendItem])
        (Except.ok ()) (Except.ok [])).calls.takeWhile
        fun c => !(isRemoveCall c)).countP isSyncCall) = 1 :=
  C8_one_resync_before_removal (mkAuthState [sampleItemNoBid]) "7"
    (Except.ok [sampleBackendItem]) (Except.ok ()) (Except.ok [])
    Role.customer sampleItemNoBid rfl (by decide) rfl

/-- C9: authenticated removal of a line with a known (truthy) backendId
whose server-side removal call fails still removes the line from the
local mirror and propagates no exception to the caller. -/
theorem C9_remove_failure_falls_back_local (st : StoreState) (pid : String)
    (s1 : Except Unit (List BackendCartItem)) (s2 : Except Unit (List BackendCartItem))
    (u : Role) (item : CartItem) (bid : Int)
    (hu : st.currentUser = some u)
    (hfind : st.cart.find? (fun i => i.id == pid) = some item)
    (hbid : item.backendId = some bid) (hbz : ¬ bid = 0) :
    (removeFromCart st pid s1 (Except.error ()) s2).st.cart
      = st.cart.filter (fun i => !(i.id == pid)) ∧
    (removeFromCart st pid s1 (Except.error ()) s2).thrown = none ∧
    ∀ i ∈ (removeFromCart st pid s1 (Except.error ()) s2).st.cart, ¬ i.id = pid := by
  have htb : truthyB item.backendId = true := by simp [truthyB, hbid, hbz]
  have hns : needsSyncFor st.cart pid = false := by simp [needsSyncFor, hfind, htb]
  have hfb : foundBid st.cart pid = some bid := by
    simp [foundBid, hfind, hbid, truthyB, hbz]
  have hcart : (removeFromCart st pid s1 (Except.error ()) s2).st.cart
      = st.cart.filter (fun i => !(i.id == pid)) := by
    simp [removeFromCart, hu, hns, hfb, setCart]
  refine ⟨hcart, by simp [removeFromCart, hu, hns, hfb], ?_⟩
  intro i hi
  rw [hcart] at hi
  have := List.of_mem_filter hi
  simpa using this

/-- Witness for C9 at a concrete authenticated state holding a line with
backendId 42 and a failing removal call. -/
theorem C9_remove_failure_falls_back_local_witness :
    (removeFromCart (mkAuthState [sampleItemBid]) "7" (Except.ok [])
        (Except.error ()) (Except.ok [])).st.cart
      = [sampleItemBid].filter (fun i => !(i.id == "7")) ∧
    (removeFromCart (mkAuthState [sampleItemBid]) "7" (Except.ok [])
        (Except.error ()) (Except.ok [])).thrown = none :=
  ⟨(C9_remove_failure_falls_back_local (mkAuthState [sampleItemBid]) "7"
      (Except.ok []) (Except.ok []) Role.customer sampleItemBid 42
      rfl (by decide) rfl (by decide)).1,
   (C9_remove_failure_falls_back_local (mkAuthState [sampleItemBid]) "7"
      (Except.ok []) (Except.ok []) Role.customer sampleItemBid 42
      rfl (by decide) rfl (by decide)).2.1⟩

/-- C10: every POS cart operation preserves pairwise-distinct product ids,
and addToPosCart of an already-present product increments that entry in
place: the cart keeps its length and its id list instead of gaining a
duplicate entry. -/
theorem C10_pos_distinct_ids (cart : List CartItem) (product : UIProduct)
    (q q2 : Int) (pid : String)
    (hnd : (posIds cart).Nodup) :
    (posIds (addToPosCart cart product q)).Nodup ∧
    (posIds (removeFromPosCart cart pid)).Nodup ∧
    (posIds (updatePosCartQuantity cart pid q2)).Nodup ∧
    (posIds clearPosCart).Nodup ∧
    ((∃ i ∈ cart, i.id = product.id) →
      (addToPosCart cart product q).length = cart.length ∧
      posIds (addToPosCart cart product q) = posIds cart) := by
  have hincf : ∀ i : CartItem,
      ((fun item => if item.id == product.id
          then { item with quantity := item.quantity + q } else item) i).id = i.id := by
    intro i
    dsimp only
    split <;> rfl
  have hupdf : ∀ i : CartItem,
      ((fun item => if item.id == pid
          then { item with quantity := q2 } else item) i).id = i.id := by
    intro i
    dsimp only
    split <;> rfl
  refine ⟨?_, ?_, ?_, by simp [posIds, clearPosCart], ?_⟩
  · unfold addToPosCart
    cases hf : cart.find? (fun item => item.id == product.id) with
    | some it =>
      rw [posIds_map_id_preserving cart _ hincf]
      exact hnd
    | none =>
      have hnotin : product.id ∉ posIds cart := by
        intro hmem
        obtain ⟨i, hi, hid⟩ := List.mem_map.mp hmem
        have := List.find?_eq_none.mp hf i hi
        simp [hid] at this
      simp only [posIds, List.map_append]
      rw [List.nodup_append]
      refine ⟨hnd, by simp [posItemOfProduct], ?_⟩
      intro a ha hb
      simp only [List.map_cons, List.map_nil, List.mem_singleton, posItemOfProduct] at hb
      subst hb
      exact hnotin ha
  · exact hnd.sublist (posIds_filter_sublist cart _)
  · unfold updatePosCartQuantity
    by_cases hq : q2 ≤ 0
    · simp only [hq, if_true]
      exact hnd.sublist (posIds_filter_sublist cart _)
    · simp only [hq, if_false]
      rw [posIds_map_id_preserving cart _ hupdf]
      exact hnd
  · rintro ⟨i, hi, hid⟩
    have hsome : (cart.find? (fun item => item.id == product.id)).isSome := by
      rw [List.find?_isSome]
      exact ⟨i, hi, by simp [hid]⟩
    obtain ⟨it, hit⟩ := Option.isSome_iff_exists.mp hsome
    constructor
    · simp [addToPosCart, hit]
    · unfold addToPosCart
      rw [hit]
      exact posIds_map_id_preserving cart _ hincf

/-- Witness for C10 at a concrete one-line POS cart receiving the same
product again. -/
theorem C10_pos_distinct_ids_witness :
    (posIds (addToPosCart [posItemOfProduct sampleUIProduct 1] sampleUIProduct 2)).Nodup ∧
    (addToPosCart [posItemOfProduct sampleUIProduct 1] sampleUIProduct 2).length
      = [posItemOfProduct sampleUIProduct 1].length :=
  ⟨(C10_pos_distinct_ids [posItemOfProduct sampleUIProduct 1] sampleUIProduct 2 1 "7"
      (by decide)).1,
   ((C10_pos_distinct_ids [posItemOfProduct sampleUIProduct 1] sampleUIProduct 2 1 "7"
      (by decide)).2.2.2.2
      ⟨posItemOfProduct sampleUIProduct 1, by decide, rfl⟩).1⟩

end Storefront
